import Mathlib

/-!
Shallow embedding of the banking domain model of `src/Hackathon/main.py`:
the `Account` hierarchy (Savings / Current policy variants), `User`, and
`Bank` (users, accounts, ownership lists, transfer orchestration).

Modelling conventions:
- Python `float` amounts are modelled as `ℚ` (the arithmetic used by the
  program is plain +, -, *, /, and comparisons on small decimal literals).
- Python exceptions are modelled with `Except` / explicit error results;
  an exception raised before any mutation leaves the state unchanged,
  which the code always does except where noted.
- Each distinct `BankingError` message string of the source becomes one
  constructor of `BankingError`; Python's built-in `KeyError` is a
  separate constructor.
- Timestamps (wall clock) are outside the model; a transaction record
  keeps the type, signed amount and resulting balance, exactly the
  remaining fields the source stores.
- Python dicts become association lists with `dictGet` / `dictInsert`
  (update-in-place on an existing key, append otherwise), and the
  subclass dispatch of `withdraw` / `calculate_interest` is by the
  `AccountType` tag.
- SHA-256 is not re-implemented: the `Bank` operations that hash take the
  hash function as an explicit parameter `hash`, so every theorem about
  them holds for the actual SHA-256 as a special case.
-/

inductive AccountType where
  | savings
  | current
deriving DecidableEq, Repr

inductive TransactionType where
  | deposit
  | withdrawal
  | transferSent
  | transferReceived
  | interestCredit
deriving DecidableEq, Repr

/-- One constructor per `BankingError` message raised in the source, plus
Python's `KeyError` (raised by `self._account_holders[username]` in
`Bank.open_account`). -/
inductive BankingError where
  | accountInactive          -- "Account is inactive"
  | invalidDepositAmount     -- "Invalid deposit amount"
  | invalidWithdrawalAmount  -- "Invalid withdrawal amount"
  | insufficientBalance      -- "Insufficient balance"
  | belowMinimumBalance      -- "Must maintain minimum balance of 1000.0"
  | exceedsOverdraftLimit    -- "Exceeds overdraft limit of 10000.0"
  | invalidUsername          -- "Invalid username format"
  | weakPassword             -- "Password does not meet security requirements"
  | usernameExists           -- "Username already exists"
  | invalidHolderName        -- "Invalid account holder name"
  | invalidTransferAmount    -- "Invalid transfer amount"
  | invalidAccountNumbers    -- "Invalid account number(s)"
  | inactiveAccounts         -- "One or both accounts are inactive"
  | keyError (key : String)  -- Python KeyError
deriving DecidableEq, Repr

/-- A transaction record (`Account._add_transaction`): type, signed amount,
resulting balance.  The wall-clock timestamp is outside the model. -/
structure Transaction where
  ttype : TransactionType
  amount : ℚ
  balance : ℚ
deriving DecidableEq, Repr

/-- State of a (Savings or Current) account.  The subclass is the
`accountType` tag. -/
structure Account where
  account_number : String
  account_holder : String
  balance : ℚ
  transactions : List Transaction
  accountType : AccountType
  is_active : Bool
deriving DecidableEq, Repr

/-- `SavingsAccount.INTEREST_RATE = 0.045`. -/
def INTEREST_RATE : ℚ := 45 / 1000

/-- `SavingsAccount.MINIMUM_BALANCE = 1000.0`. -/
def MINIMUM_BALANCE : ℚ := 1000

/-- `CurrentAccount.OVERDRAFT_LIMIT = 10000.0`. -/
def OVERDRAFT_LIMIT : ℚ := 10000

/-- `Account.__init__` (via the subclass constructors): balance 0, no
transactions, active. -/
def mkAccount (number holder : String) (t : AccountType) : Account :=
  { account_number := number
    account_holder := holder
    balance := 0
    transactions := []
    accountType := t
    is_active := true }

/-- `Account._add_transaction`: append a record carrying the current
(post-operation) balance. -/
def Account.addTransaction (a : Account) (t : TransactionType) (amount : ℚ) : Account :=
  { a with transactions := a.transactions ++ [⟨t, amount, a.balance⟩] }

/-- `Account.deposit`. -/
def Account.deposit (a : Account) (amount : ℚ) : Except BankingError Account :=
  if !a.is_active then .error .accountInactive
  else if amount ≤ 0 then .error .invalidDepositAmount
  else
    let a' := { a with balance := a.balance + amount }
    .ok (a'.addTransaction .deposit amount)

/-- `Account.withdraw`, the shared base-class logic (`super().withdraw`
for both variants). -/
def Account.baseWithdraw (a : Account) (amount : ℚ) : Except BankingError Account :=
  if !a.is_active then .error .accountInactive
  else if amount ≤ 0 then .error .invalidWithdrawalAmount
  else if amount > a.balance then .error .insufficientBalance
  else
    let a' := { a with balance := a.balance - amount }
    .ok (a'.addTransaction .withdrawal (-amount))

/-- The dynamic dispatch of `withdraw`: `SavingsAccount.withdraw` checks
the minimum balance, `CurrentAccount.withdraw` checks the overdraft
limit, then both call `super().withdraw`. -/
def Account.withdraw (a : Account) (amount : ℚ) : Except BankingError Account :=
  match a.accountType with
  | .savings =>
      if a.balance - amount < MINIMUM_BALANCE then .error .belowMinimumBalance
      else a.baseWithdraw amount
  | .current =>
      if a.balance - amount < -OVERDRAFT_LIMIT then .error .exceedsOverdraftLimit
      else a.baseWithdraw amount

/-- The dynamic dispatch of `calculate_interest`: Savings credits
`balance * INTEREST_RATE / 12` and records it; Current returns 0 with no
side effect.  Result: (new account state, returned amount). -/
def Account.calculate_interest (a : Account) : Account × ℚ :=
  match a.accountType with
  | .savings =>
      let monthly_interest := a.balance * INTEREST_RATE / 12
      let a' := { a with balance := a.balance + monthly_interest }
      (a'.addTransaction .interestCredit monthly_interest, monthly_interest)
  | .current => (a, 0)

/-- `Account.toggle_account_status`. -/
def Account.toggle_account_status (a : Account) : Account :=
  { a with is_active := !a.is_active }

/-- One account-level operation, for stating properties of arbitrary
finite operation sequences. -/
inductive AccountOp where
  | deposit (amount : ℚ)
  | withdraw (amount : ℚ)
  | calcInterest
deriving DecidableEq, Repr

/-- Apply one operation; a raised exception leaves the account unchanged
(in the source every check precedes every mutation). -/
def Account.applyOp (a : Account) (op : AccountOp) : Account :=
  match op with
  | .deposit amount =>
      match a.deposit amount with
      | .ok a' => a'
      | .error _ => a
  | .withdraw amount =>
      match a.withdraw amount with
      | .ok a' => a'
      | .error _ => a
  | .calcInterest => (a.calculate_interest).1

def Account.applyOps (a : Account) (ops : List AccountOp) : Account :=
  ops.foldl Account.applyOp a

/-- Sum of the signed amounts of all recorded transactions. -/
def Account.txAmountSum (a : Account) : ℚ :=
  (a.transactions.map Transaction.amount).sum

/-- `User`: stores the username and the one-way hash of the password. -/
structure User where
  username : String
  password_hash : String
deriving DecidableEq, Repr

/-- `User.__init__`, with the hash function passed explicitly
(`User._hash_password` is SHA-256 in the source). -/
def User.mk' (hash : String → String) (username password : String) : User :=
  { username := username, password_hash := hash password }

/-- `User.verify_password`: recompute the hash and compare. -/
def User.verify_password (hash : String → String) (u : User) (password : String) : Bool :=
  hash password == u.password_hash

/-- Python dict lookup (`d.get(k)` / `k in d`), on an association list. -/
def dictGet (k : String) : List (String × α) → Option α
  | [] => none
  | (k', v) :: rest => if k' = k then some v else dictGet k rest

/-- Python dict write `d[k] = v`: update in place if the key exists,
append otherwise. -/
def dictInsert (k : String) (v : α) : List (String × α) → List (String × α)
  | [] => [(k, v)]
  | (k', v') :: rest =>
      if k' = k then (k, v) :: rest else (k', v') :: dictInsert k v rest

/-- `Bank.__init__`: accounts, users, and username → owned account
numbers. -/
structure Bank where
  accounts : List (String × Account)
  users : List (String × User)
  account_holders : List (String × List String)
deriving DecidableEq, Repr

def Bank.init : Bank := { accounts := [], users := [], account_holders := [] }

/-- `Bank._validate_name`: `^[A-Za-z\s]{2,50}$` (with `\s` instantiated at
the space characters; the menu shell strips surrounding whitespace). -/
def Bank.validate_name (name : String) : Bool :=
  2 ≤ name.length && name.length ≤ 50 &&
    name.toList.all (fun c => c.isAlpha || c = ' ')

/-- `Bank._validate_username`: `^[A-Za-z0-9_]{4,20}$`. -/
def Bank.validate_username (username : String) : Bool :=
  4 ≤ username.length && username.length ≤ 20 &&
    username.toList.all (fun c => c.isAlpha || c.isDigit || c = '_')

/-- The special-character class of `Bank._validate_password`:
`[!@#$%^&*(),.?":{}|<>]`. -/
def specialChars : List Char :=
  ['!', '@', '#', '$', '%', '^', '&', '*', '(', ')', ',', '.', '?', '\"',
   ':', '\x7b', '\x7d', '|', '<', '>']

/-- `Bank._validate_password`: length ≥ 8, an uppercase letter, a
lowercase letter, a digit, and a special character. -/
def Bank.validate_password (password : String) : Bool :=
  8 ≤ password.length &&
    password.toList.any Char.isUpper &&
    password.toList.any Char.isLower &&
    password.toList.any Char.isDigit &&
    password.toList.any (fun c => specialChars.contains c)

/-- `Bank.create_user`.  The state is returned alongside the result; every
error is raised before any mutation. -/
def Bank.create_user (hash : String → String) (bank : Bank)
    (username password : String) : Bank × Except BankingError Bool :=
  if !Bank.validate_username username then (bank, .error .invalidUsername)
  else if !Bank.validate_password password then (bank, .error .weakPassword)
  else if (dictGet username bank.users).isSome then (bank, .error .usernameExists)
  else
    ({ bank with
        users := dictInsert username (User.mk' hash username password) bank.users
        account_holders := dictInsert username [] bank.account_holders },
      .ok true)

/-- `Bank.authenticate_user`: true iff the user exists and the password
verifies; total (never raises). -/
def Bank.authenticate_user (hash : String → String) (bank : Bank)
    (username password : String) : Bool :=
  match dictGet username bank.users with
  | some user => user.verify_password hash password
  | none => false

/-- `Bank.open_account`.  The source draws `account_number` from
`_generate_account_number` (uniform random retried until unused); the
drawn number is passed here as the parameter `number`.  Note the order of
effects: the account is stored in `_accounts` BEFORE
`_account_holders[username]` is read, and that read raises `KeyError`
when the username is unknown. -/
def Bank.open_account (bank : Bank) (username holder : String)
    (t : AccountType) (number : String) : Bank × Except BankingError String :=
  if !Bank.validate_name holder then (bank, .error .invalidHolderName)
  else
    let account := mkAccount number holder t
    let bank1 := { bank with accounts := dictInsert number account bank.accounts }
    match dictGet username bank1.account_holders with
    | none => (bank1, .error (.keyError username))
    | some lst =>
        ({ bank1 with
            account_holders := dictInsert username (lst ++ [number]) bank1.account_holders },
          .ok number)

/-- `Bank.get_account`. -/
def Bank.get_account (bank : Bank) (number : String) : Option Account :=
  dictGet number bank.accounts

/-- `Bank.transfer`.  When the two account numbers are equal the Python
objects alias, so the deposit and both transfer records apply to the
account state the withdrawal produced; the model reproduces that. -/
def Bank.transfer (bank : Bank) (sender_number receiver_number : String)
    (amount : ℚ) : Bank × Except BankingError Bool :=
  if amount ≤ 0 then (bank, .error .invalidTransferAmount)
  else
    match dictGet sender_number bank.accounts,
          dictGet receiver_number bank.accounts with
    | some sender, some receiver =>
        if !sender.is_active || !receiver.is_active then
          (bank, .error .inactiveAccounts)
        else
          match sender.withdraw amount with
          | .error e => (bank, .error e)
          | .ok sender' =>
              let receiverObj :=
                if sender_number = receiver_number then sender' else receiver
              match receiverObj.deposit amount with
              | .error e =>
                  ({ bank with
                      accounts := dictInsert sender_number sender' bank.accounts },
                    .error e)
              | .ok receiver' =>
                  if sender_number = receiver_number then
                    let final :=
                      (receiver'.addTransaction .transferSent (-amount)).addTransaction
                        .transferReceived amount
                    ({ bank with
                        accounts := dictInsert sender_number final bank.accounts },
                      .ok true)
                  else
                    let sender'' := sender'.addTransaction .transferSent (-amount)
                    let receiver'' := receiver'.addTransaction .transferReceived amount
                    ({ bank with
                        accounts :=
                          dictInsert receiver_number receiver''
                            (dictInsert sender_number sender'' bank.accounts) },
                      .ok true)
    | _, _ => (bank, .error .invalidAccountNumbers)

/-! ### Basic lemmas about the dictionary model -/

theorem dictGet_dictInsert (k k' : String) (v : α) (d : List (String × α)) :
    dictGet k' (dictInsert k v d) = if k = k' then some v else dictGet k' d := by
  induction d with
  | nil => by_cases h : k = k' <;> simp [dictInsert, dictGet, h]
  | cons hd tl ih =>
      obtain ⟨k₀, v₀⟩ := hd
      by_cases h0 : k₀ = k
      · subst h0
        by_cases h1 : k₀ = k'
        · subst h1; simp [dictInsert, dictGet]
        · simp [dictInsert, dictGet, h1]
      · by_cases h1 : k₀ = k'
        · subst h1
          have hk : ¬ k = k₀ := fun hh => h0 hh.symm
          simp [dictInsert, dictGet, h0, hk]
        · simp [dictInsert, dictGet, h0, h1, ih]

theorem dictGet_dictInsert_self (k : String) (v : α) (d : List (String × α)) :
    dictGet k (dictInsert k v d) = some v := by
  simp [dictGet_dictInsert]

theorem dictGet_dictInsert_ne (k k' : String) (v : α) (d : List (String × α))
    (h : k ≠ k') : dictGet k' (dictInsert k v d) = dictGet k' d := by
  simp [dictGet_dictInsert, h]

theorem dictGet_isSome_dictInsert (k m : String) (v : α) (d : List (String × α))
    (h : (dictGet m d).isSome) : (dictGet m (dictInsert k v d)).isSome := by
  rw [dictGet_dictInsert]
  by_cases hk : k = m <;> simp [hk, h]

/-! ### Structural lemmas about the account operations -/

theorem Account.deposit_ok_spec {a : Account} {amount : ℚ} {a' : Account}
    (h : a.deposit amount = .ok a') :
    a.is_active = true ∧ 0 < amount ∧
      a' = { a with
              balance := a.balance + amount
              transactions :=
                a.transactions ++ [⟨.deposit, amount, a.balance + amount⟩] } := by
  unfold Account.deposit at h
  cases ha : a.is_active <;> simp [ha] at h
  by_cases hamt : amount ≤ 0
  · simp [hamt] at h
  · simp [hamt, Account.addTransaction] at h
    exact ⟨rfl, lt_of_not_le hamt, h.symm⟩

theorem Account.deposit_ok_of {a : Account} {amount : ℚ}
    (ha : a.is_active = true) (hamt : 0 < amount) :
    a.deposit amount =
      .ok { a with
              balance := a.balance + amount
              transactions :=
                a.transactions ++ [⟨.deposit, amount, a.balance + amount⟩] } := by
  simp [Account.deposit, ha, not_le.mpr hamt, Account.addTransaction]

theorem Account.baseWithdraw_ok_spec {a : Account} {amount : ℚ} {a' : Account}
    (h : a.baseWithdraw amount = .ok a') :
    a.is_active = true ∧ 0 < amount ∧ amount ≤ a.balance ∧
      a' = { a with
              balance := a.balance - amount
              transactions :=
                a.transactions ++ [⟨.withdrawal, -amount, a.balance - amount⟩] } := by
  unfold Account.baseWithdraw at h
  cases ha : a.is_active <;> simp [ha] at h
  by_cases hamt : amount ≤ 0
  · simp [hamt] at h
  · by_cases hins : amount > a.balance
    · simp [hamt, hins] at h
    · simp [hamt, hins, Account.addTransaction] at h
      exact ⟨rfl, lt_of_not_le hamt, le_of_not_lt hins, h.symm⟩

theorem Account.withdraw_ok_spec {a : Account} {amount : ℚ} {a' : Account}
    (h : a.withdraw amount = .ok a') :
    a.is_active = true ∧ 0 < amount ∧ amount ≤ a.balance ∧
      (a.accountType = .savings → MINIMUM_BALANCE ≤ a.balance - amount) ∧
      (a.accountType = .current → -OVERDRAFT_LIMIT ≤ a.balance - amount) ∧
      a' = { a with
              balance := a.balance - amount
              transactions :=
                a.transactions ++ [⟨.withdrawal, -amount, a.balance - amount⟩] } := by
  unfold Account.withdraw at h
  cases ht : a.accountType <;> rw [ht] at h
  · by_cases hp : a.balance - amount < MINIMUM_BALANCE
    · simp [hp] at h
    · obtain ⟨h1, h2, h3, h4⟩ := Account.baseWithdraw_ok_spec (by simpa [hp] using h)
      exact ⟨h1, h2, h3, fun _ => le_of_not_lt hp, by simp, ht ▸ h4⟩
  · by_cases hp : a.balance - amount < -OVERDRAFT_LIMIT
    · simp [hp] at h
    · obtain ⟨h1, h2, h3, h4⟩ := Account.baseWithdraw_ok_spec (by simpa [hp] using h)
      exact ⟨h1, h2, h3, by simp, fun _ => le_of_not_lt hp, ht ▸ h4⟩

theorem Account.withdraw_ok_is_active {a : Account} {amount : ℚ} {a' : Account}
    (h : a.withdraw amount = .ok a') : a.is_active = true ∧ a'.is_active = true := by
  obtain ⟨h1, _, _, _, _, h6⟩ := Account.withdraw_ok_spec h
  exact ⟨h1, by rw [h6]; exact h1⟩

theorem Account.deposit_error_spec {a : Account} {amount : ℚ} {e : BankingError}
    (h : a.deposit amount = .error e) : a.is_active = false ∨ amount ≤ 0 := by
  unfold Account.deposit at h
  cases ha : a.is_active <;> simp [ha] at h
  · exact Or.inl rfl
  · by_cases hamt : amount ≤ 0
    · exact Or.inr hamt
    · simp [hamt] at h

theorem Account.applyOp_accountType (a : Account) (op : AccountOp) :
    (a.applyOp op).accountType = a.accountType := by
  cases op with
  | deposit amount =>
      cases h : a.deposit amount with
      | ok a' =>
          obtain ⟨_, _, hrec⟩ := Account.deposit_ok_spec h
          simp [Account.applyOp, h, hrec]
      | error e => simp [Account.applyOp, h]
  | withdraw amount =>
      cases h : a.withdraw amount with
      | ok a' =>
          obtain ⟨_, _, _, _, _, hrec⟩ := Account.withdraw_ok_spec h
          simp [Account.applyOp, h, hrec]
      | error e => simp [Account.applyOp, h]
  | calcInterest =>
      show (a.calculate_interest).1.accountType = a.accountType
      unfold Account.calculate_interest
      cases ht : a.accountType <;> simp [Account.addTransaction, ht]

theorem Account.applyOps_accountType (a : Account) (ops : List AccountOp) :
    (a.applyOps ops).accountType = a.accountType := by
  induction ops generalizing a with
  | nil => rfl
  | cons op rest ih =>
      show ((a.applyOp op).applyOps rest).accountType = a.accountType
      rw [ih, Account.applyOp_accountType]

theorem Account.savings_withdraw_ok_min {a a' : Account} {amount : ℚ}
    (hs : a.accountType = .savings) (h : a.withdraw amount = .ok a') :
    MINIMUM_BALANCE ≤ a'.balance := by
  obtain ⟨_, _, _, hmin, _, hrec⟩ := Account.withdraw_ok_spec h
  rw [hrec]
  exact hmin hs

/-! ### Concrete data used by the witnesses and scenarios -/

def numA : String := "1111111111"
def numB : String := "2222222222"
def numFresh : String := "0123456789"
def holderAlice : String := "Alice Smith"
def holderBob : String := "Bob Jones"
def uAlice : String := "alice_01"
def pAlice : String := "Str0ng!Pass"
def pWrong : String := "Wr0ng!Pass"
def uGhost : String := "ghost_user"

/-- Savings account after `deposit 1500` (spec scenario, first step). -/
def acctS1500 : Account := (mkAccount numA holderAlice .savings).applyOps [.deposit 1500]

/-- Savings account after `deposit 1500; withdraw 400` (balance 1100). -/
def acctS1100 : Account :=
  (mkAccount numA holderAlice .savings).applyOps [.deposit 1500, .withdraw 400]

/-- Transfer scenario: sender, a Current account with balance 500. -/
def acctA : Account := (mkAccount numA holderAlice .current).applyOps [.deposit 500]

/-- Transfer scenario: receiver, a Current account with balance 200. -/
def acctB : Account := (mkAccount numB holderBob .current).applyOps [.deposit 200]

/-- Transfer scenario bank holding the two accounts. -/
def bankAB : Bank :=
  { accounts := [(numA, acctA), (numB, acctB)], users := [], account_holders := [] }

/-- An inactive Savings account with balance 0 (for the tie-break witness). -/
def acctInactiveS : Account :=
  { account_number := numA, account_holder := holderAlice, balance := 0,
    transactions := [], accountType := .savings, is_active := false }

/-- An inactive Current account with balance 0 (for the tie-break witness). -/
def acctInactiveC : Account :=
  { account_number := numB, account_holder := holderBob, balance := 0,
    transactions := [], accountType := .current, is_active := false }

/-- A Savings account with balance 100 (for the ledger witness). -/
def acctW : Account :=
  { account_number := numB, account_holder := holderBob, balance := 100,
    transactions := [], accountType := .savings, is_active := true }

/-- `acctW` after a successful `deposit 300`. -/
def acctWdep : Account :=
  { acctW with balance := 400, transactions := [⟨.deposit, 300, 400⟩] }

/-! ### The claims -/

/-- C1: the claim says a Current-account withdrawal succeeds whenever
`balance - amount ≥ -10000`, e.g. `withdraw 5000` at balance 0 leaves
balance -5000.  The code disagrees: `CurrentAccount.withdraw` passes its
overdraft check and then calls `Account.withdraw`, whose
`amount > self._balance` check raises `Insufficient balance` for every
overdraft, so the documented overdraft facility is unreachable.  This
theorem evaluates the code at the claim's own example: the overdraft
guard is satisfied, yet the withdrawal raises `insufficientBalance`. -/
theorem C1_current_overdraft_unreachable :
    -OVERDRAFT_LIMIT ≤ (mkAccount numA holderAlice .current).balance - 5000 ∧
    (mkAccount numA holderAlice .current).withdraw 5000 =
      .error .insufficientBalance := by
  constructor
  · norm_num [mkAccount, OVERDRAFT_LIMIT]
  · norm_num [Account.withdraw, Account.baseWithdraw, mkAccount, OVERDRAFT_LIMIT]

/-- C2: a successful Savings withdrawal always leaves at least the
minimum balance (1000); a withdrawal that would go below it fails with
`belowMinimumBalance` and changes nothing, and this holds in any state,
in particular along every operation sequence from account creation. -/
theorem C2_savings_min_balance (a : Account) (amount : ℚ)
    (hs : a.accountType = .savings) :
    (∀ a', a.withdraw amount = .ok a' → MINIMUM_BALANCE ≤ a'.balance) ∧
    (a.balance - amount < MINIMUM_BALANCE →
      a.withdraw amount = .error .belowMinimumBalance ∧
      a.applyOp (.withdraw amount) = a) ∧
    (∀ ops a', (a.applyOps ops).withdraw amount = .ok a' →
      MINIMUM_BALANCE ≤ a'.balance) := by
  refine ⟨fun a' h => Account.savings_withdraw_ok_min hs h, fun hlt => ?_, ?_⟩
  · have herr : a.withdraw amount = .error .belowMinimumBalance := by
      simp [Account.withdraw, hs, hlt]
    exact ⟨herr, by simp [Account.applyOp, herr]⟩
  · intro ops a' h
    exact Account.savings_withdraw_ok_min ((Account.applyOps_accountType a ops).trans hs) h

/-- C2 witness: from a fresh Savings account after `deposit 1500`,
`withdraw 400` succeeds with balance ≥ 1000, and at balance 1100
`withdraw 200` fails with `belowMinimumBalance`. -/
theorem C2_savings_min_balance_witness :
    MINIMUM_BALANCE ≤ (acctS1100).balance ∧
    acctS1100.withdraw 200 = .error .belowMinimumBalance :=
  ⟨(C2_savings_min_balance acctS1500 400 (Account.applyOps_accountType _ _)).1 acctS1100
      (by norm_num [acctS1500, acctS1100, Account.applyOps, Account.applyOp,
        Account.deposit, Account.withdraw, Account.baseWithdraw,
        Account.addTransaction, mkAccount, MINIMUM_BALANCE]),
   ((C2_savings_min_balance acctS1100 200 (Account.applyOps_accountType _ _)).2.1
      (by norm_num [acctS1100, Account.applyOps, Account.applyOp,
        Account.deposit, Account.withdraw, Account.baseWithdraw,
        Account.addTransaction, mkAccount, MINIMUM_BALANCE])).1⟩

/-- C5: the variant-specific policy check of `withdraw` runs before all
shared base-class checks: whenever the policy is violated the policy
error is raised, regardless of the amount's sign or the active flag. -/
theorem C5_policy_check_first (a : Account) (amount : ℚ) :
    (a.accountType = .savings → a.balance - amount < MINIMUM_BALANCE →
      a.withdraw amount = .error .belowMinimumBalance) ∧
    (a.accountType = .current → a.balance - amount < -OVERDRAFT_LIMIT →
      a.withdraw amount = .error .exceedsOverdraftLimit) := by
  constructor <;> intro ht hlt <;> simp [Account.withdraw, ht, hlt]

/-- C5 witness: on an INACTIVE Savings account a withdrawal of a NEGATIVE
amount (violating both shared preconditions) still raises the variant's
`belowMinimumBalance`, and likewise for Current/`exceedsOverdraftLimit`. -/
theorem C5_policy_check_first_witness :
    acctInactiveS.withdraw (-5) = .error .belowMinimumBalance ∧
    acctInactiveC.withdraw 20000 = .error .exceedsOverdraftLimit :=
  ⟨(C5_policy_check_first acctInactiveS (-5)).1 rfl
      (by norm_num [acctInactiveS, MINIMUM_BALANCE]),
   (C5_policy_check_first acctInactiveC 20000).2 rfl
      (by norm_num [acctInactiveC, OVERDRAFT_LIMIT])⟩

/-- C6: `calculate_interest` on Savings credits exactly
`balance * 0.045 / 12`, records one InterestCredit transaction for that
amount, and returns it; on Current it returns 0 and changes nothing. -/
theorem C6_calculate_interest (a : Account) :
    (a.accountType = .savings →
      (a.calculate_interest).2 = a.balance * INTEREST_RATE / 12 ∧
      (a.calculate_interest).1.balance = a.balance + a.balance * INTEREST_RATE / 12 ∧
      (a.calculate_interest).1.transactions =
        a.transactions ++ [⟨.interestCredit, a.balance * INTEREST_RATE / 12,
          a.balance + a.balance * INTEREST_RATE / 12⟩]) ∧
    (a.accountType = .current → a.calculate_interest = (a, 0)) := by
  constructor <;> intro ht <;> simp [Account.calculate_interest, ht, Account.addTransaction]

/-- C6 witness: at balance 1500 the Savings interest credited is
1500 · 0.045 / 12 = 5.625, and a Current account is left untouched with
return value 0. -/
theorem C6_calculate_interest_witness :
    (acctS1100.calculate_interest).2 = acctS1100.balance * INTEREST_RATE / 12 ∧
    acctInactiveC.calculate_interest = (acctInactiveC, 0) :=
  ⟨((C6_calculate_interest acctS1100).1 (Account.applyOps_accountType _ _)).1,
   (C6_calculate_interest acctInactiveC).2 rfl⟩

theorem Account.txAmountSum_addTransaction (a : Account) (t : TransactionType)
    (amount : ℚ) : (a.addTransaction t amount).txAmountSum = a.txAmountSum + amount := by
  simp [Account.txAmountSum, Account.addTransaction]

theorem Account.applyOp_balance_sum (a : Account) (op : AccountOp)
    (h : a.balance = a.txAmountSum) :
    (a.applyOp op).balance = (a.applyOp op).txAmountSum := by
  cases op with
  | deposit amount =>
      cases hd : a.deposit amount with
      | ok a' =>
          obtain ⟨_, _, hrec⟩ := Account.deposit_ok_spec hd
          simp [Account.applyOp, hd, hrec, Account.txAmountSum, h]
      | error e => simpa [Account.applyOp, hd] using h
  | withdraw amount =>
      cases hw : a.withdraw amount with
      | ok a' =>
          obtain ⟨_, _, _, _, _, hrec⟩ := Account.withdraw_ok_spec hw
          simp [Account.applyOp, hw, hrec, Account.txAmountSum, h]
          ring
      | error e => simpa [Account.applyOp, hw] using h
  | calcInterest =>
      show (a.calculate_interest).1.balance = (a.calculate_interest).1.txAmountSum
      unfold Account.calculate_interest
      cases ht : a.accountType
      · simp [Account.txAmountSum, Account.addTransaction, h]
      · simpa using h

theorem Account.applyOps_balance_sum (a : Account) (ops : List AccountOp)
    (h : a.balance = a.txAmountSum) :
    (a.applyOps ops).balance = (a.applyOps ops).txAmountSum := by
  induction ops generalizing a with
  | nil => exact h
  | cons op rest ih =>
      show ((a.applyOp op).applyOps rest).balance = ((a.applyOp op).applyOps rest).txAmountSum
      exact ih _ (Account.applyOp_balance_sum a op h)

/-- C4 counterexample to the claim as stated: `calculate_interest` on a
Current account is a successful operation (it returns 0 and raises
nothing) yet appends NO transaction record, not exactly one. -/
theorem C4_counterexample_current_interest :
    ((mkAccount numB holderBob .current).calculate_interest).2 = 0 ∧
    ((mkAccount numB holderBob .current).calculate_interest).1.transactions.length = 0 ∧
    ¬ ((mkAccount numB holderBob .current).calculate_interest).1.transactions.length
        = (mkAccount numB holderBob .current).transactions.length + 1 := by
  refine ⟨rfl, rfl, by simp [Account.calculate_interest, mkAccount]⟩

/-- C4 (amended): for every account and every finite sequence of
deposit/withdraw/calculate_interest operations from creation, the balance
equals the sum of the signed recorded transaction amounts starting from
zero; each successful deposit and withdraw, and each `calculate_interest`
on a Savings account, appends exactly one record carrying the
post-operation balance — while `calculate_interest` on a Current account
appends none and leaves the account unchanged. -/
theorem C4_ledger_invariant :
    (∀ (number holder : String) (t : AccountType) (ops : List AccountOp),
      ((mkAccount number holder t).applyOps ops).balance =
        ((mkAccount number holder t).applyOps ops).txAmountSum) ∧
    (∀ (a : Account) (amount : ℚ) (a' : Account), a.deposit amount = .ok a' →
      a'.transactions = a.transactions ++ [⟨.deposit, amount, a'.balance⟩]) ∧
    (∀ (a : Account) (amount : ℚ) (a' : Account), a.withdraw amount = .ok a' →
      a'.transactions = a.transactions ++ [⟨.withdrawal, -amount, a'.balance⟩]) ∧
    (∀ a : Account, a.accountType = .savings →
      (a.calculate_interest).1.transactions = a.transactions ++
        [⟨.interestCredit, (a.calculate_interest).2, (a.calculate_interest).1.balance⟩]) ∧
    (∀ a : Account, a.accountType = .current → (a.calculate_interest).1 = a) := by
  refine ⟨fun number holder t ops => Account.applyOps_balance_sum _ ops rfl,
    fun a amount a' h => ?_, fun a amount a' h => ?_, fun a ht => ?_, fun a ht => ?_⟩
  · obtain ⟨_, _, hrec⟩ := Account.deposit_ok_spec h
    simp [hrec]
  · obtain ⟨_, _, _, _, _, hrec⟩ := Account.withdraw_ok_spec h
    simp [hrec]
  · simp [Account.calculate_interest, ht, Account.addTransaction]
  · simp [Account.calculate_interest, ht]

/-- C4 witness: on a concrete Savings account with balance 100,
`deposit 300` succeeds and its single appended record carries the new
balance 400; and the fresh-account ledger invariant instantiated at a
concrete operation sequence. -/
theorem C4_ledger_invariant_witness :
    acctWdep.transactions = acctW.transactions ++ [⟨.deposit, 300, acctWdep.balance⟩] ∧
    ((mkAccount numA holderAlice .savings).applyOps
        [.deposit 1500, .withdraw 400]).balance =
      ((mkAccount numA holderAlice .savings).applyOps
        [.deposit 1500, .withdraw 400]).txAmountSum :=
  ⟨C4_ledger_invariant.2.1 acctW 300 acctWdep
      (by norm_num [Account.deposit, Account.addTransaction, acctW, acctWdep]),
   C4_ledger_invariant.1 numA holderAlice .savings [.deposit 1500, .withdraw 400]⟩

/-- `create_user` success case, solved form: the returned state extends
the user map and gives the new user an empty account list. -/
theorem Bank.create_user_ok_spec {hash : String → String} {bank bank' : Bank}
    {u p : String} (h : bank.create_user hash u p = (bank', .ok true)) :
    bank' = { bank with
               users := dictInsert u (User.mk' hash u p) bank.users
               account_holders := dictInsert u [] bank.account_holders } := by
  by_cases hu : Bank.validate_username u = true
  · by_cases hp : Bank.validate_password p = true
    · by_cases hex : (dictGet u bank.users).isSome = true
      · simp [Bank.create_user, hu, hp, hex] at h
      · simp [Bank.create_user, hu, hp, hex] at h
        exact h.symm
    · simp [Bank.create_user, hu, hp] at h
  · simp [Bank.create_user, hu] at h

/-- C7: `create_user` raises a validation error exactly when the username
fails its pattern, the password fails the strength rules, or the username
is taken; otherwise it registers the user with an empty owned-account
list and changes nothing else. -/
theorem C7_create_user (hash : String → String) (bank : Bank)
    (username password : String) :
    ((∃ e, (bank.create_user hash username password).2 = .error e) ↔
      (Bank.validate_username username = false ∨
       Bank.validate_password password = false ∨
       (dictGet username bank.users).isSome = true)) ∧
    (Bank.validate_username username = true →
     Bank.validate_password password = true →
     dictGet username bank.users = none →
      bank.create_user hash username password =
        ({ bank with
            users := dictInsert username (User.mk' hash username password) bank.users
            account_holders := dictInsert username [] bank.account_holders },
          .ok true) ∧
      (bank.create_user hash username password).1.accounts = bank.accounts ∧
      dictGet username (bank.create_user hash username password).1.users =
        some (User.mk' hash username password) ∧
      dictGet username (bank.create_user hash username password).1.account_holders =
        some [] ∧
      (∀ u, u ≠ username →
        dictGet u (bank.create_user hash username password).1.users =
          dictGet u bank.users ∧
        dictGet u (bank.create_user hash username password).1.account_holders =
          dictGet u bank.account_holders)) := by
  by_cases hu : Bank.validate_username username = true
  · by_cases hp : Bank.validate_password password = true
    · by_cases hex : (dictGet username bank.users).isSome = true
      · have herr : bank.create_user hash username password =
            (bank, .error .usernameExists) := by
          simp [Bank.create_user, hu, hp, hex]
        refine ⟨?_, fun _ _ hnone => ?_⟩
        · rw [herr]; simp [hex]
        · rw [hnone] at hex; simp at hex
      · have hnone : dictGet username bank.users = none := by
          cases hd : dictGet username bank.users with
          | none => rfl
          | some u => rw [hd] at hex; simp at hex
        have hok : bank.create_user hash username password =
            ({ bank with
                users := dictInsert username (User.mk' hash username password) bank.users
                account_holders := dictInsert username [] bank.account_holders },
              .ok true) := by
          simp [Bank.create_user, hu, hp, hex]
        refine ⟨?_, fun _ _ _ => ⟨hok, ?_, ?_, ?_, ?_⟩⟩
        · rw [hok]; simp [hu, hp, hex]
        · rw [hok]
        · rw [hok]; exact dictGet_dictInsert_self _ _ _
        · rw [hok]; exact dictGet_dictInsert_self _ _ _
        · intro u hu'
          rw [hok]
          exact ⟨dictGet_dictInsert_ne _ _ _ _ (Ne.symm hu'),
            dictGet_dictInsert_ne _ _ _ _ (Ne.symm hu')⟩
    · have hpf : Bank.validate_password password = false := by simpa using hp
      have herr : bank.create_user hash username password =
          (bank, .error .weakPassword) := by
        simp [Bank.create_user, hu, hp]
      refine ⟨?_, fun _ hp' _ => absurd hp' hp⟩
      rw [herr]; simp [hpf]
  · have huf : Bank.validate_username username = false := by simpa using hu
    have herr : bank.create_user hash username password =
        (bank, .error .invalidUsername) := by
      simp [Bank.create_user, hu]
    refine ⟨?_, fun hu' _ _ => absurd hu' hu⟩
    rw [herr]; simp [huf]

/-- Bank state after registering `uAlice` with password `pAlice` (hash
function instantiated at `id` for the witnesses). -/
def bankU : Bank :=
  { accounts := [], users := [(uAlice, User.mk' id uAlice pAlice)],
    account_holders := [(uAlice, [])] }

/-- C7 witness: registering `alice_01` with `Str0ng!Pass` in the empty
bank succeeds and produces exactly the extended user/ownership maps. -/
theorem C7_create_user_witness :
    Bank.init.create_user id uAlice pAlice = (bankU, .ok true) := by
  have h := ((C7_create_user id Bank.init uAlice pAlice).2
    (by decide) (by decide) rfl).1
  rw [h]
  rfl

/-- C8: `authenticate_user` is total and returns true exactly when the
user exists and the candidate's hash equals the stored hash; after a
successful registration the original password authenticates and any
candidate with a different hash does not. -/
theorem C8_authenticate_user (hash : String → String) (bank : Bank)
    (username password : String) :
    (bank.authenticate_user hash username password = true ↔
      ∃ user, dictGet username bank.users = some user ∧
        hash password = user.password_hash) ∧
    (∀ bank', bank.create_user hash username password = (bank', .ok true) →
      bank'.authenticate_user hash username password = true ∧
      ∀ p', hash p' ≠ hash password →
        bank'.authenticate_user hash username p' = false) := by
  constructor
  · unfold Bank.authenticate_user
    cases hd : dictGet username bank.users with
    | none => simp
    | some user => simp [User.verify_password]
  · intro bank' h
    have hb := Bank.create_user_ok_spec h
    subst hb
    constructor
    · simp [Bank.authenticate_user, dictGet_dictInsert_self,
        User.verify_password, User.mk']
    · intro p' hne
      simp [Bank.authenticate_user, dictGet_dictInsert_self,
        User.verify_password, User.mk', hne]

/-- C8 witness: in the bank where `alice_01` was registered with
`Str0ng!Pass`, the original password authenticates and `Wr0ng!Pass`
does not. -/
theorem C8_authenticate_user_witness :
    bankU.authenticate_user id uAlice pAlice = true ∧
    bankU.authenticate_user id uAlice pWrong = false := by
  have h := (C8_authenticate_user id Bank.init uAlice pAlice).2 bankU (by rfl)
  exact ⟨h.1, h.2 pWrong (by decide)⟩

/-- The recorded amounts of all transactions of a given type. -/
def Account.txOfType (a : Account) (ty : TransactionType) : List ℚ :=
  (a.transactions.filter fun t => decide (t.ttype = ty)).map Transaction.amount

/-- C3: `transfer` fails with the validation error on a non-positive
amount, with the account-not-found error when either number is unknown,
with the inactive-accounts error when either side is inactive, and
otherwise performs the sender's `withdraw`, the receiver's `deposit`, and
appends one TransferSent / TransferReceived record to each side; on the
concrete scenario (sender at 500, receiver at 200, transfer 100) the
balances become 400 and 300 with exactly one matching transfer record on
each side. -/
theorem C3_transfer (bank : Bank) (s r : String) (amount : ℚ) :
    (amount ≤ 0 → bank.transfer s r amount = (bank, .error .invalidTransferAmount)) ∧
    (0 < amount →
      (dictGet s bank.accounts = none ∨ dictGet r bank.accounts = none) →
      bank.transfer s r amount = (bank, .error .invalidAccountNumbers)) ∧
    (∀ sa ra, 0 < amount →
      dictGet s bank.accounts = some sa → dictGet r bank.accounts = some ra →
      (sa.is_active = false ∨ ra.is_active = false) →
      bank.transfer s r amount = (bank, .error .inactiveAccounts)) ∧
    (∀ sa ra sa', 0 < amount → s ≠ r →
      dictGet s bank.accounts = some sa → dictGet r bank.accounts = some ra →
      ra.is_active = true → sa.withdraw amount = .ok sa' →
      bank.transfer s r amount =
        ({ bank with
            accounts := dictInsert r
              (Account.addTransaction
                { ra with
                    balance := ra.balance + amount
                    transactions := ra.transactions ++
                      [⟨.deposit, amount, ra.balance + amount⟩] }
                TransactionType.transferReceived amount)
              (dictInsert s (sa'.addTransaction .transferSent (-amount))
                bank.accounts) },
          .ok true)) ∧
    ((bankAB.transfer numA numB 100).2 = .ok true ∧
      (Bank.get_account (bankAB.transfer numA numB 100).1 numA).map Account.balance =
        some 400 ∧
      (Bank.get_account (bankAB.transfer numA numB 100).1 numB).map Account.balance =
        some 300 ∧
      (Bank.get_account (bankAB.transfer numA numB 100).1 numA).map
        (fun a => a.txOfType .transferSent) = some [-100] ∧
      (Bank.get_account (bankAB.transfer numA numB 100).1 numB).map
        (fun a => a.txOfType .transferReceived) = some [100]) := by
  refine ⟨fun h => by simp [Bank.transfer, h], fun h hor => ?_, ?_, ?_, ?_⟩
  · rcases hor with h1 | h1
    · simp [Bank.transfer, show ¬ (amount ≤ 0) from not_le.mpr h, h1]
    · cases h2 : dictGet s bank.accounts with
      | none => simp [Bank.transfer, show ¬ (amount ≤ 0) from not_le.mpr h, h2]
      | some sa =>
          simp [Bank.transfer, show ¬ (amount ≤ 0) from not_le.mpr h, h2, h1]
  · intro sa ra h hs hr hact
    have hcond : (!sa.is_active || !ra.is_active) = true := by
      rcases hact with h1 | h1 <;> simp [h1]
    simp [Bank.transfer, show ¬ (amount ≤ 0) from not_le.mpr h, hs, hr, hcond]
  · intro sa ra sa' h hne hs hr hra hw
    have hsa : sa.is_active = true := (Account.withdraw_ok_is_active hw).1
    have hdep := @Account.deposit_ok_of ra amount hra h
    simp [Bank.transfer, show ¬ (amount ≤ 0) from not_le.mpr h, hs, hr, hsa, hra,
      hne, hw, hdep, Account.addTransaction]
  · have hab : ¬ (("1111111111" : String) = "2222222222") := by decide
    have hba : ¬ (("2222222222" : String) = "1111111111") := by decide
    norm_num [Bank.transfer, Bank.get_account, bankAB, acctA, acctB,
      Account.applyOps, Account.applyOp, Account.deposit, Account.withdraw,
      Account.baseWithdraw, Account.addTransaction, Account.txOfType, mkAccount,
      dictGet, dictInsert, numA, numB, hab, hba, OVERDRAFT_LIMIT, MINIMUM_BALANCE]
    decide

/-- C3 witness: a non-positive amount is rejected with the validation
error, and a transfer in the empty bank is rejected with the
account-not-found error. -/
theorem C3_transfer_witness :
    bankAB.transfer numA numB (-5) = (bankAB, .error .invalidTransferAmount) ∧
    Bank.init.transfer numA numB 100 = (Bank.init, .error .invalidAccountNumbers) :=
  ⟨(C3_transfer bankAB numA numB (-5)).1 (by norm_num),
   (C3_transfer Bank.init numA numB 100).2.1 (by norm_num) (Or.inl rfl)⟩

/-- C9: `transfer` is all-or-nothing — whenever it reports an error, the
bank state (both balances and both transaction logs included) is exactly
the pre-call state; no failure can follow a successful sender
withdrawal, because the receiver-deposit preconditions were already
checked. -/
theorem C9_transfer_all_or_nothing (bank : Bank) (s r : String) (amount : ℚ)
    (e : BankingError) (h : (bank.transfer s r amount).2 = .error e) :
    (bank.transfer s r amount).1 = bank := by
  by_cases hle : amount ≤ 0
  · simp [Bank.transfer, hle]
  · rcases hs : dictGet s bank.accounts with _ | sa
    · simp [Bank.transfer, hle, hs]
    · rcases hr : dictGet r bank.accounts with _ | ra
      · simp [Bank.transfer, hle, hs, hr]
      · by_cases hact : (!sa.is_active || !ra.is_active) = true
        · simp [Bank.transfer, hle, hs, hr, hact]
        · have hsa : sa.is_active = true := by
            cases h1 : sa.is_active
            · rw [h1] at hact; simp at hact
            · rfl
          have hra : ra.is_active = true := by
            cases h1 : ra.is_active
            · rw [h1] at hact; simp [hsa] at hact
            · rfl
          rcases hw : sa.withdraw amount with e' | sa'
          · simp [Bank.transfer, hle, hs, hr, hsa, hra, hw]
          · exfalso
            by_cases hsr : s = r
            · subst hsr
              rw [hs] at hr
              injection hr with hra'
              subst hra'
              have hobj : sa'.is_active = true := (Account.withdraw_ok_is_active hw).2
              have hdep := @Account.deposit_ok_of sa' amount hobj (lt_of_not_le hle)
              rw [show (bank.transfer s s amount).2 = .ok true by
                simp [Bank.transfer, hle, hs, hsa, hw, hdep]] at h
              simp at h
            · have hdep := @Account.deposit_ok_of ra amount hra (lt_of_not_le hle)
              rw [show (bank.transfer s r amount).2 = .ok true by
                simp [Bank.transfer, hle, hs, hr, hsa, hra, hw, hdep, hsr]] at h
              simp at h

/-- C9 witness: a failing transfer (unknown accounts in the empty bank)
leaves the bank exactly as it was. -/
theorem C9_transfer_all_or_nothing_witness :
    (Bank.init.transfer numA numB 5).1 = Bank.init :=
  C9_transfer_all_or_nothing Bank.init numA numB 5 .invalidAccountNumbers (by rfl)

/-- The two possible post-states of `create_user`: unchanged on error, or
extended user/ownership maps on success. -/
theorem Bank.create_user_state (hash : String → String) (bank : Bank)
    (u p : String) :
    (bank.create_user hash u p).1 = bank ∨
    ((bank.create_user hash u p).1 =
        { bank with
            users := dictInsert u (User.mk' hash u p) bank.users
            account_holders := dictInsert u [] bank.account_holders } ∧
      dictGet u bank.users = none) := by
  by_cases hu : Bank.validate_username u = true
  · by_cases hp : Bank.validate_password p = true
    · by_cases hex : (dictGet u bank.users).isSome = true
      · left; simp [Bank.create_user, hu, hp, hex]
      · right
        have hnone : dictGet u bank.users = none := by
          cases hd : dictGet u bank.users
          · rfl
          · rw [hd] at hex; simp at hex
        exact ⟨by simp [Bank.create_user, hu, hp, hex], hnone⟩
    · left; simp [Bank.create_user, hu, hp]
  · left; simp [Bank.create_user, hu]

/-- The three possible post-states of `open_account`: unchanged on a name
validation error; account stored but ownership untouched when the
username is unknown (the `KeyError` path); account stored and appended to
the owner's list on success. -/
theorem Bank.open_account_state (bank : Bank) (username holder : String)
    (t : AccountType) (n : String) :
    (bank.open_account username holder t n).1 = bank ∨
    ((bank.open_account username holder t n).1 =
        { bank with accounts := dictInsert n (mkAccount n holder t) bank.accounts } ∧
      dictGet username bank.account_holders = none) ∨
    (∃ lst, dictGet username bank.account_holders = some lst ∧
      (bank.open_account username holder t n).1 =
        { bank with
            accounts := dictInsert n (mkAccount n holder t) bank.accounts
            account_holders := dictInsert username (lst ++ [n]) bank.account_holders }) := by
  by_cases hn : Bank.validate_name holder = true
  · cases hd : dictGet username bank.account_holders with
    | none =>
        right; left
        exact ⟨by simp [Bank.open_account, hn, hd], rfl⟩
    | some lst =>
        right; right
        exact ⟨lst, rfl, by simp [Bank.open_account, hn, hd]⟩
  · left; simp [Bank.open_account, hn]

/-- The possible post-states of `transfer`: unchanged, one account
rewritten, or two accounts rewritten. -/
theorem Bank.transfer_state (bank : Bank) (s r : String) (amount : ℚ) :
    (bank.transfer s r amount).1 = bank ∨
    (∃ k a, (bank.transfer s r amount).1 =
      { bank with accounts := dictInsert k a bank.accounts }) ∨
    (∃ k a k' a', (bank.transfer s r amount).1 =
      { bank with accounts := dictInsert k' a' (dictInsert k a bank.accounts) }) := by
  by_cases hle : amount ≤ 0
  · left; simp [Bank.transfer, hle]
  · rcases hs : dictGet s bank.accounts with _ | sa
    · left; simp [Bank.transfer, hle, hs]
    · rcases hr : dictGet r bank.accounts with _ | ra
      · left; simp [Bank.transfer, hle, hs, hr]
      · by_cases hact : (!sa.is_active || !ra.is_active) = true
        · left; simp [Bank.transfer, hle, hs, hr, hact]
        · have hsa : sa.is_active = true := by
            cases h1 : sa.is_active
            · rw [h1] at hact; simp at hact
            · rfl
          have hra : ra.is_active = true := by
            cases h1 : ra.is_active
            · rw [h1] at hact; simp [hsa] at hact
            · rfl
          rcases hw : sa.withdraw amount with e' | sa'
          · left; simp [Bank.transfer, hle, hs, hr, hsa, hra, hw]
          · by_cases hsr : s = r
            · subst hsr
              rw [hs] at hr
              injection hr with hre
              subst hre
              rcases hd : sa'.deposit amount with e | recv'
              · right; left
                exact ⟨s, sa', by simp [Bank.transfer, hle, hs, hsa, hw, hd]⟩
              · right; left
                refine ⟨s, (recv'.addTransaction .transferSent
                  (-amount)).addTransaction .transferReceived amount, ?_⟩
                simp [Bank.transfer, hle, hs, hsa, hw, hd]
            · rcases hd : ra.deposit amount with e | recv'
              · right; left
                exact ⟨s, sa', by simp [Bank.transfer, hle, hs, hr, hsa, hra, hw, hsr, hd]⟩
              · right; right
                refine ⟨s, sa'.addTransaction .transferSent (-amount), r,
                  recv'.addTransaction .transferReceived amount, ?_⟩
                simp [Bank.transfer, hle, hs, hr, hsa, hra, hw, hsr, hd]

/-- `transfer` never touches the user or ownership maps and never removes
an account. -/
theorem Bank.transfer_preserves (bank : Bank) (s r : String) (amount : ℚ) :
    (bank.transfer s r amount).1.users = bank.users ∧
    (bank.transfer s r amount).1.account_holders = bank.account_holders ∧
    ∀ n, (dictGet n bank.accounts).isSome →
      (dictGet n (bank.transfer s r amount).1.accounts).isSome := by
  rcases Bank.transfer_state bank s r amount with h | ⟨k, a, h⟩ | ⟨k, a, k', a', h⟩
  · rw [h]; exact ⟨rfl, rfl, fun n hn => hn⟩
  · rw [h]
    exact ⟨rfl, rfl, fun n hn => dictGet_isSome_dictInsert _ _ _ _ hn⟩
  · rw [h]
    exact ⟨rfl, rfl, fun n hn =>
      dictGet_isSome_dictInsert _ _ _ _ (dictGet_isSome_dictInsert _ _ _ _ hn)⟩

/-- Bank states reachable by the program: the empty bank, then any
sequence of `create_user`, `open_account` (with the generator's fresh
number), `transfer`, direct account operations through `get_account`
(deposit / withdraw / calculate_interest), and status toggles. -/
inductive Bank.Reachable : Bank → Prop where
  | init : Bank.Reachable Bank.init
  | create_user {b : Bank} (hash : String → String) (u p : String) :
      Bank.Reachable b → Bank.Reachable (b.create_user hash u p).1
  | open_account {b : Bank} (u hn : String) (t : AccountType) (n : String) :
      Bank.Reachable b → dictGet n b.accounts = none →
      Bank.Reachable (b.open_account u hn t n).1
  | transfer {b : Bank} (s r : String) (amount : ℚ) :
      Bank.Reachable b → Bank.Reachable (b.transfer s r amount).1
  | accountOp {b : Bank} (n : String) (op : AccountOp) (a : Account) :
      Bank.Reachable b → dictGet n b.accounts = some a →
      Bank.Reachable { b with accounts := dictInsert n (a.applyOp op) b.accounts }
  | toggle {b : Bank} (n : String) (a : Account) :
      Bank.Reachable b → dictGet n b.accounts = some a →
      Bank.Reachable { b with accounts := dictInsert n a.toggle_account_status b.accounts }

/-- A username absent from the user map is also absent from the
ownership map. -/
def Bank.UsersHoldersInv (b : Bank) : Prop :=
  ∀ u, dictGet u b.users = none → dictGet u b.account_holders = none

/-- Every account number in an ownership list names a stored account. -/
def Bank.HoldersAccountsInv (b : Bank) : Prop :=
  ∀ u lst, dictGet u b.account_holders = some lst →
    ∀ n, n ∈ lst → (dictGet n b.accounts).isSome

/-- Both global invariants hold in every reachable bank state. -/
theorem Bank.Reachable.invariants {b : Bank} (hb : b.Reachable) :
    b.UsersHoldersInv ∧ b.HoldersAccountsInv := by
  induction hb with
  | init =>
      exact ⟨fun u _ => rfl, fun u lst h => by simp [Bank.init, dictGet] at h⟩
  | create_user hash u p hb ih =>
      obtain ⟨ih1, ih2⟩ := ih
      rcases Bank.create_user_state hash _ u p with h | ⟨h, hnone⟩
      · rw [h]; exact ⟨ih1, ih2⟩
      · rw [h]
        constructor
        · intro u' hu'
          rw [dictGet_dictInsert] at hu' ⊢
          by_cases he : u = u'
          · simp [he] at hu'
          · simp only [if_neg he] at hu' ⊢
            exact ih1 u' hu'
        · intro u' lst hl n hn
          rw [dictGet_dictInsert] at hl
          by_cases he : u = u'
          · rw [if_pos he] at hl
            injection hl with hl
            rw [← hl] at hn
            simp at hn
          · rw [if_neg he] at hl
            exact ih2 u' lst hl n hn
  | open_account u hn t n hb hfresh ih =>
      obtain ⟨ih1, ih2⟩ := ih
      rcases Bank.open_account_state _ u hn t n with h | ⟨h, hnone⟩ | ⟨lst, hl, h⟩
      · rw [h]; exact ⟨ih1, ih2⟩
      · rw [h]
        exact ⟨fun u' hu' => ih1 u' hu', fun u' lst' hl' m hm =>
          dictGet_isSome_dictInsert _ _ _ _ (ih2 u' lst' hl' m hm)⟩
      · rw [h]
        constructor
        · intro u' hu'
          rw [dictGet_dictInsert]
          by_cases he : u = u'
          · subst he
            have hcontra := ih1 u hu'
            rw [hcontra] at hl
            exact Option.noConfusion hl
          · rw [if_neg he]
            exact ih1 u' hu'
        · intro u' lst' hl' m hm
          rw [dictGet_dictInsert] at hl'
          by_cases he : u = u'
          · rw [if_pos he] at hl'
            injection hl' with hl'
            rw [← hl'] at hm
            rcases List.mem_append.mp hm with hm1 | hm1
            · subst he
              exact dictGet_isSome_dictInsert _ _ _ _ (ih2 u lst hl m hm1)
            · rw [List.mem_singleton.mp hm1]
              rw [dictGet_dictInsert_self]
              rfl
          · rw [if_neg he] at hl'
            exact dictGet_isSome_dictInsert _ _ _ _ (ih2 u' lst' hl' m hm)
  | transfer s r amount hb ih =>
      obtain ⟨ih1, ih2⟩ := ih
      obtain ⟨h1, h2, h3⟩ := Bank.transfer_preserves _ s r amount
      constructor
      · intro u hu
        rw [h1] at hu
        rw [h2]
        exact ih1 u hu
      · intro u lst hl m hm
        rw [h2] at hl
        exact h3 m (ih2 u lst hl m hm)
  | accountOp n op a hb hn ih =>
      obtain ⟨ih1, ih2⟩ := ih
      exact ⟨fun u hu => ih1 u hu, fun u lst hl m hm =>
        dictGet_isSome_dictInsert _ _ _ _ (ih2 u lst hl m hm)⟩
  | toggle n a hb hn ih =>
      obtain ⟨ih1, ih2⟩ := ih
      exact ⟨fun u hu => ih1 u hu, fun u lst hl m hm =>
        dictGet_isSome_dictInsert _ _ _ _ (ih2 u lst hl m hm)⟩

/-- C10: in any reachable bank state, `open_account` for an unregistered
username with a valid holder name raises Python's `KeyError` (not the
domain validation error), and it has already stored the new account: the
failed call leaves an account present in the account map but in no
user's owned-account list. -/
theorem C10_open_account_unregistered (bank : Bank) (username holder : String)
    (t : AccountType) (n : String)
    (hreach : bank.Reachable)
    (hname : Bank.validate_name holder = true)
    (huser : dictGet username bank.users = none)
    (hfresh : dictGet n bank.accounts = none) :
    (bank.open_account username holder t n).2 = .error (.keyError username) ∧
    (bank.open_account username holder t n).1 =
      { bank with accounts := dictInsert n (mkAccount n holder t) bank.accounts } ∧
    dictGet n (bank.open_account username holder t n).1.accounts =
      some (mkAccount n holder t) ∧
    (bank.open_account username holder t n).1.users = bank.users ∧
    (bank.open_account username holder t n).1.account_holders = bank.account_holders ∧
    ∀ u lst,
      dictGet u (bank.open_account username holder t n).1.account_holders = some lst →
      n ∉ lst := by
  have hholders : dictGet username bank.account_holders = none :=
    (Bank.Reachable.invariants hreach).1 username huser
  have hres : bank.open_account username holder t n =
      ({ bank with accounts := dictInsert n (mkAccount n holder t) bank.accounts },
        .error (.keyError username)) := by
    simp [Bank.open_account, hname, hholders]
  refine ⟨by rw [hres], by rw [hres], ?_, by rw [hres], by rw [hres], ?_⟩
  · rw [hres]
    exact dictGet_dictInsert_self _ _ _
  · intro u lst hl hmem
    rw [hres] at hl
    have hsome := (Bank.Reachable.invariants hreach).2 u lst hl n hmem
    rw [hfresh] at hsome
    simp at hsome

/-- C10 witness: opening a Savings account for the unregistered username
`ghost_user` in the empty bank raises `KeyError ghost_user` while the
freshly numbered account is already stored. -/
theorem C10_open_account_unregistered_witness :
    (Bank.init.open_account uGhost holderAlice .savings numFresh).2 =
      .error (.keyError uGhost) ∧
    dictGet numFresh
      (Bank.init.open_account uGhost holderAlice .savings numFresh).1.accounts =
      some (mkAccount numFresh holderAlice .savings) := by
  have h := C10_open_account_unregistered Bank.init uGhost holderAlice .savings
    numFresh Bank.Reachable.init (by decide) rfl rfl
  exact ⟨h.1, h.2.2.1⟩
